import Mathlib

/-!
# LinkedIn management system — workflow engine verification

A shallow embedding of the decision logic of the LinkedIn automation
repository:

* the scoring helpers (relevance blending, composite content score),
* the trend ranking / deduplication algorithm
  (`app/agents/trend_analysis_agent.py`, `_rank_trends`),
* the content review / approval gate and the publish / regenerate / skip
  decision (`app/workflows/linkedin_workflow.py`),
* the publish-time computation (`_calculate_optimal_post_times`),
* the regenerate loop of the workflow graph and the run-summary contract
  of `run_daily_automation`.

Python floats are modelled as rationals (`ℚ`); timestamps are modelled as
minutes since an arbitrary epoch (the source only ever inspects the day and
the hour-of-day of a timestamp, and adds whole-minute offsets).  Python's
stable `list.sort` is modelled with `List.insertionSort`, which is stable for
a total preorder whose ties are `true`, hence produces the same list as any
other stable sort.  External collaborators (LLM service, database) are
modelled as explicit function parameters.
-/

namespace LinkedInWF

/-! ## Scoring helpers (§ "ScoringUtils")

`blendRelevance` is the final-score formula inlined in
`TrendAnalysisAgent._rank_trends`:
`final_score = (relevance_score * 0.7) + (min(count / 5, 1.0) * 0.3)`.

`compositeScore` is the weighted composite inlined in
`LinkedInAutomationWorkflow._review_content_node`:
`readability*0.3 + engagement*100*0.4 + trend_relevance*100*0.3`. -/

def blendRelevance (llmScore : ℚ) (mentionCount : ℕ) : ℚ :=
  llmScore * 0.7 + min ((mentionCount : ℚ) / 5) 1 * 0.3

def compositeScore (readability engagement trendRelevance : ℚ) : ℚ :=
  readability * 0.3 + engagement * 100 * 0.4 + trendRelevance * 100 * 0.3

/-! ## Data model -/

/-- A ranked trend record as produced by `_rank_trends` / `_store_trends` and
consumed by the workflow nodes (a Python dict in the source). -/
structure Trend where
  topic : String
  hashtags : List String := []
  relevance_score : ℚ := 0
  mention_count : ℕ := 0
  source : String := ""
deriving DecidableEq, Repr

/-- The `quality_metrics` dict computed by
`ContentCreationAgent._analyze_content_quality` (only the two scores the
workflow's review formula mentions are modelled). -/
structure QualityMetrics where
  readability_score : ℚ := 0
  engagement_score : ℚ := 0
deriving DecidableEq, Repr

/-- The post dict returned by `ContentCreationAgent._store_content`: it
carries the stored post's id and a flat `readability_score`, but **no**
`quality_metrics` key.  The `Option`-typed field models the dict lookup
`post.get("quality_metrics", {})`; `_store_content` always leaves it
absent (`none`). -/
structure PostRecord where
  id : ℕ := 0
  readability_score : ℚ := 0
  quality_metrics : Option QualityMetrics := none
deriving DecidableEq, Repr

/-- The generation result dict (`result["data"]` of the content agent): the
stored post dict under `"post"` and the quality metrics as a *top-level*
sibling key `"quality_metrics"`. -/
structure GenContent where
  post : PostRecord := {}
  quality_metrics : QualityMetrics := {}
deriving DecidableEq, Repr

/-- One content candidate inside `state.generated_content`: the generation
result dict together with the `trend_info` / `tone` annotations added by
`_generate_content_node` and the `composite_score` / `approved` annotations
added by `_review_content_node`. -/
structure Candidate where
  post : PostRecord := {}
  quality_metrics : QualityMetrics := {}
  trend_relevance : ℚ := 0
  tone : String := "professional"
  composite_score : ℚ := 0
  approved : Bool := false
deriving DecidableEq, Repr

/-- A record appended to `state.published_posts` by `_schedule_posts_node`. -/
structure ScheduledRecord where
  post_id : ℕ
  scheduled_at : ℕ
deriving DecidableEq, Repr

/-- The LangGraph shared state `LinkedInWorkflowState`.  Analytics counters
that the source never reads in its decision logic are kept as the list
lengths they summarise. -/
structure WState where
  sources : List String := ["techcrunch"]
  max_trends : ℕ := 5
  max_posts_per_day : ℕ := 3
  content_tones : List String := ["professional", "casual"]
  trends : List Trend := []
  generated_content : List Candidate := []
  published_posts : List ScheduledRecord := []
  workflow_id : String := ""
  current_step : String := ""
  errors : List String := []
deriving DecidableEq, Repr

/-! ## Review node and the publish / regenerate / skip decision -/

/-- The composite score `_review_content_node` actually computes for a
candidate (lines 201–212): the node looks the metrics up under
`content["post"].get("quality_metrics", {})` — and `_store_content`'s post
dict never carries that key — so whenever the lookup misses, both
`readability_score` and `engagement_score` default to 0 and only the
originating trend's relevance contributes. -/
def candidateComposite (c : Candidate) : ℚ :=
  let qm := c.post.quality_metrics.getD {}
  compositeScore qm.readability_score qm.engagement_score c.trend_relevance

/-- Annotation of one candidate by the review node:
`content["composite_score"] = composite_score` and
`content["approved"] = composite_score >= 40`. -/
def reviewOne (c : Candidate) : Candidate :=
  { c with
    composite_score := candidateComposite c
    approved := decide (40 ≤ candidateComposite c) }

/-- Descending order on composite score used by
`state.generated_content.sort(key=..., reverse=True)`.  Ties are `True`, so a
stable sort under this relation reproduces Python's stable sort. -/
def scoreDesc (a b : Candidate) : Prop := b.composite_score ≤ a.composite_score

instance : DecidableRel scoreDesc := fun a b =>
  inferInstanceAs (Decidable (b.composite_score ≤ a.composite_score))

instance : IsTotal Candidate scoreDesc := ⟨fun a b => le_total b.composite_score a.composite_score⟩

instance : IsTrans Candidate scoreDesc := ⟨fun _ _ _ h h2 => le_trans h2 h⟩

/-- `_review_content_node`: annotate every candidate, then sort by score
descending (the `current_step` write is also mirrored). -/
def review_content_node (s : WState) : WState :=
  { s with
    current_step := "reviewing_content"
    generated_content := List.insertionSort scoreDesc (s.generated_content.map reviewOne) }

/-- `approved_count = sum(1 for c in state.generated_content if c.get("approved", False))`. -/
def approvedCount (cs : List Candidate) : ℕ := (cs.filter (·.approved)).length

/-- The three outgoing labels of the `review_content` conditional edge. -/
inductive Decision where
  | publish
  | regenerate
  | skip
deriving DecidableEq, Repr

/-- `_should_publish_content`, the conditional edge of the graph:
empty content → skip; ≥ 1 approved → publish; fewer than 5 candidates in
`generated_content` → regenerate; otherwise skip. -/
def should_publish_content (s : WState) : Decision :=
  if s.generated_content.isEmpty then .skip
  else if 1 ≤ approvedCount s.generated_content then .publish
  else if s.generated_content.length < 5 then .regenerate
  else .skip

/-! ## Content generation node -/

/-- Candidate built from a successful generation result for one
trend × tone pair (`content_data["trend_info"] = trend`,
`content_data["tone"] = tone`). -/
def mkCandidate (t : Trend) (tone : String) (g : GenContent) : Candidate :=
  { post := g.post
    quality_metrics := g.quality_metrics
    trend_relevance := t.relevance_score
    tone := tone }

/-- The list of candidates one pass of the generation loop produces: the
trend × tone Cartesian product, dropping pairs whose external call failed
(`gen t tone = none` covers both `result["success"] == False` and a raised
exception, each of which drops just that candidate). -/
def passCandidates (gen : Trend → String → Option GenContent)
    (trends : List Trend) (tones : List String) : List Candidate :=
  trends.flatMap fun t => tones.filterMap fun tone => (gen t tone).map (mkCandidate t tone)

/-- `_generate_content_node`: set `current_step`, reset
`state.generated_content = []`, then loop over `state.trends` ×
`state.content_tones` appending each successful generation result. -/
def generate_content_node (gen : Trend → String → Option GenContent) (s : WState) : WState :=
  s.trends.foldl
    (fun st t =>
      s.content_tones.foldl
        (fun st2 tone =>
          match gen t tone with
          | some g => { st2 with generated_content := st2.generated_content ++ [mkCandidate t tone g] }
          | none => st2)
        st)
    { s with current_step := "generating_content", generated_content := [] }

/-! ## Post-time computation -/

/-- `optimal_hours = [8, 12, 17]` in `_calculate_optimal_post_times`. -/
def optimal_hours : List ℕ := [8, 12, 17]

/-- `_calculate_optimal_post_times`, at minute granularity.  `base` is
`datetime.utcnow()` as minutes since an epoch; `base / 1440` is its calendar
day and `base % 1440 / 60` its hour.  Slot `i` uses
`optimal_hours[i % 3]`, rolled to the next day when `base_time.hour >= hour`,
plus `i * 30` minutes of jitter. -/
def calculate_optimal_post_times (num_posts : ℕ) (base : ℕ) : List ℕ :=
  (List.range num_posts).map fun i =>
    let hour := optimal_hours.getD (i % optimal_hours.length) 0
    let day := if hour ≤ base % 1440 / 60 then base / 1440 + 1 else base / 1440
    day * 1440 + hour * 60 + i * 30

/-! ## Schedule and monitor nodes, and the regenerate loop

The database is modelled by `persist : Candidate → Bool`: whether the
post row was found and the status update committed; a failed lookup or a
raised exception drops just that record from `published_posts`. -/

/-- `_schedule_posts_node`: filter approved, truncate to
`max_posts_per_day`, compute times, append one `ScheduledRecord` per
successfully persisted post. -/
def schedule_posts_node (persist : Candidate → Bool) (now : ℕ) (s : WState) : WState :=
  let toSchedule := (s.generated_content.filter (·.approved)).take s.max_posts_per_day
  let times := calculate_optimal_post_times toSchedule.length now
  { s with
    current_step := "scheduling_posts"
    published_posts := s.published_posts ++
      (toSchedule.zip times).filterMap fun p =>
        if persist p.1 then some ⟨p.1.post.id, p.2⟩ else none }

/-- `_monitor_engagement_node`: a placeholder; only `current_step` is set. -/
def monitor_engagement_node (s : WState) : WState :=
  { s with current_step := "monitoring_engagement" }

/-- Outcome of the conditional part of the graph. -/
inductive Outcome where
  | published
  | skipped
deriving DecidableEq, Repr

/-- The `generate_content → review_content → {publish, regenerate, skip}`
cycle of the compiled graph, driven by fuel (LangGraph's recursion limit).
`none` means the fuel ran out with the loop still regenerating. -/
def reviewLoop (gen : Trend → String → Option GenContent) (persist : Candidate → Bool)
    (now : ℕ) (s : WState) : ℕ → Option (Outcome × WState)
  | 0 => none
  | fuel + 1 =>
    let s2 := review_content_node (generate_content_node gen s)
    match should_publish_content s2 with
    | .publish => some (.published, monitor_engagement_node (schedule_posts_node persist now s2))
    | .skip => some (.skipped, s2)
    | .regenerate => reviewLoop gen persist now s2 fuel

/-! ## Trend ranking (`TrendAnalysisAgent._rank_trends`) -/

/-- Python's `str.lower()` case-folding, modelled character-wise (the topics
the pipeline handles are plain text). -/
def strLower (s : String) : String := String.mk (s.data.map Char.toLower)

/-- One extracted topic mention, as built by
`_extract_topics_from_articles`: the topic string with the hashtags and
source-article metadata of its first occurrence. -/
structure Mention where
  topic : String
  hashtags : List String := []
  source : String := ""
deriving DecidableEq, Repr

/-- The trend dict `_rank_trends` emits: `topic_data[topic].copy()` with
`relevance_score` overwritten by the blended final score and
`mention_count` added. -/
structure RankedTrend where
  topic : String
  hashtags : List String
  source : String
  relevance_score : ℚ
  mention_count : ℕ
deriving DecidableEq, Repr

/-- The grouping loop of `_rank_trends`: walk the mentions, stopping once 10
mentions have been consumed (`if counter >= 10: break`); key each mention by
its lower-cased topic; the first occurrence of a key seeds its metadata
(`topic_data[topic] = topic_info`), later occurrences only bump the count.
The accumulator is an insertion-ordered association list, mirroring a Python
dict. -/
def tally : List Mention → ℕ → List (String × Mention × ℕ) → List (String × Mention × ℕ)
  | [], _, acc => acc
  | m :: ms, counter, acc =>
    if 10 ≤ counter then acc
    else
      let key := strLower m.topic
      let acc2 :=
        if acc.any (fun p => p.1 = key) then
          acc.map fun p => if p.1 = key then (p.1, p.2.1, p.2.2 + 1) else p
        else acc ++ [(key, m, 1)]
      tally ms (counter + 1) acc2

/-- The relevance-assessment call for one topic.  `Except.error` models the
LLM call raising (the topic is then excluded from the ranked output);
`Except.ok none` models an unparseable response (`float(...)` raising
`ValueError`, defaulting the relevance to 0.5); `Except.ok (some v)` a parsed
float, which the source clamps to [0,1]. -/
def topicScore (llm : String → Except Unit (Option ℚ)) (key : String) (count : ℕ) :
    Option ℚ :=
  match llm key with
  | .error _ => none
  | .ok resp =>
    let relevance := match resp with
      | some v => max 0 (min 1 v)
      | none => 0.5
    some (blendRelevance relevance count)

/-- The scoring loop of `_rank_trends`: for each distinct topic, assess
relevance, blend with the mention frequency, and emit the annotated trend
dict; a raised assessment excludes only that topic. -/
def scoreTopics (llm : String → Except Unit (Option ℚ)) :
    List (String × Mention × ℕ) → List RankedTrend
  | [] => []
  | (key, m, count) :: rest =>
    match topicScore llm key count with
    | none => scoreTopics llm rest
    | some final =>
      { topic := m.topic
        hashtags := m.hashtags
        source := m.source
        relevance_score := final
        mention_count := count } :: scoreTopics llm rest

/-- Descending order on the final score used by
`ranked_trends.sort(key=lambda x: x['relevance_score'], reverse=True)`. -/
def rankDesc (a b : RankedTrend) : Prop := b.relevance_score ≤ a.relevance_score

instance : DecidableRel rankDesc := fun a b =>
  inferInstanceAs (Decidable (b.relevance_score ≤ a.relevance_score))

instance : IsTotal RankedTrend rankDesc := ⟨fun a b => le_total b.relevance_score a.relevance_score⟩

instance : IsTrans RankedTrend rankDesc := ⟨fun _ _ _ h h2 => le_trans h2 h⟩

/-- `_rank_trends`: group and count (capped at 10 mentions), score each
distinct topic, sort descending by final score, truncate to `limit`. -/
def rank_trends (llm : String → Except Unit (Option ℚ))
    (topics : List Mention) (limit : ℕ) : List RankedTrend :=
  (List.insertionSort rankDesc (scoreTopics llm (tally topics 0 []))).take limit

/-! ## Run summary (`run_daily_automation`) -/

/-- The `summary` dict of the success return value. -/
structure RunSummary where
  trends_found : ℕ
  content_generated : ℕ
  posts_scheduled : ℕ
  errors : List String
deriving DecidableEq, Repr

/-- The dict returned by `run_daily_automation`: the success branch carries a
summary and the scheduled posts; the failure branch carries only an error
message. -/
structure RunResult where
  success : Bool
  workflow_id : String
  summary : Option RunSummary
  scheduled_posts : Option (List ScheduledRecord)
  error : Option String
deriving DecidableEq, Repr

/-- `run_daily_automation`: the graph invocation either returns a final state
or raises (`Except.error`); the surrounding try/except always converts the
outcome into a `RunResult` value. -/
def run_daily_automation (wid : String) (invoke : Except String WState) : RunResult :=
  match invoke with
  | .ok fs =>
    { success := true
      workflow_id := fs.workflow_id
      summary := some
        { trends_found := fs.trends.length
          content_generated := fs.generated_content.length
          posts_scheduled := fs.published_posts.length
          errors := fs.errors }
      scheduled_posts := some fs.published_posts
      error := none }
  | .error e =>
    { success := false
      workflow_id := wid
      summary := none
      scheduled_posts := none
      error := some ("Workflow execution failed: " ++ e) }

/-! ## Concrete fixtures

A one-trend configuration together with a generation service stub that
always succeeds but only ever produces low-engagement content (all quality
metrics zero, trend relevance 0.9, composite score 27 < 40, never
approved). -/

/-- A single trend for the fixture configuration. -/
def t0 : Trend := { topic := "ai agents", relevance_score := 0.9 }

/-- A generation stub that always returns content with zero quality
metrics. -/
def genStub : Trend → String → Option GenContent := fun _ _ => some {}

/-- Fixture state: one trend, the default two tones. -/
def s0 : WState := { trends := [t0] }

/-- Invariant of the grouping accumulator of `tally`: keys are pairwise
distinct and every key is the lower-cased topic of its seed mention. -/
def GoodAcc (acc : List (String × Mention × ℕ)) : Prop :=
  acc.Pairwise (fun p q => p.1 ≠ q.1) ∧ ∀ p ∈ acc, p.1 = strLower p.2.1.topic

end LinkedInWF

namespace LinkedInWF

/-! # Theorems -/

/-! ## Scoring (claims C7, C9) -/

/-- **C7**: for every relevance `r ∈ [0,1]` and mention count `m ≥ 0`, the
blended final score equals `0.7*r + 0.3*min(m/5, 1)` and lies in `[0,1]`. -/
theorem blendRelevance_spec (r : ℚ) (m : ℕ) (h0 : 0 ≤ r) (h1 : r ≤ 1) :
    blendRelevance r m = 0.7 * r + 0.3 * min ((m : ℚ) / 5) 1 ∧
    0 ≤ blendRelevance r m ∧ blendRelevance r m ≤ 1 := by
  have hm0 : (0 : ℚ) ≤ min ((m : ℚ) / 5) 1 :=
    le_min (div_nonneg (Nat.cast_nonneg m) (by norm_num)) zero_le_one
  have hm1 : min ((m : ℚ) / 5) 1 ≤ 1 := min_le_right _ _
  unfold blendRelevance
  refine ⟨by ring, by nlinarith, by nlinarith⟩

/-- Witness for `blendRelevance_spec` at `r = 0.9`, `m = 5`. -/
theorem blendRelevance_spec_witness :
    blendRelevance 0.9 5 = 0.7 * 0.9 + 0.3 * min ((5 : ℚ) / 5) 1 ∧
    0 ≤ blendRelevance 0.9 5 ∧ blendRelevance 0.9 5 ≤ 1 :=
  blendRelevance_spec 0.9 5 (by norm_num) (by norm_num)

/-- **C9**: the composite score is monotonically non-decreasing in each of
its three inputs individually, holding the other two fixed. -/
theorem compositeScore_monotone :
    (∀ r r' e t : ℚ, r ≤ r' → compositeScore r e t ≤ compositeScore r' e t) ∧
    (∀ r e e' t : ℚ, e ≤ e' → compositeScore r e t ≤ compositeScore r e' t) ∧
    (∀ r e t t' : ℚ, t ≤ t' → compositeScore r e t ≤ compositeScore r e t') := by
  refine ⟨?_, ?_, ?_⟩ <;> intro a b c d h <;> unfold compositeScore <;> nlinarith

/-- Witness for `compositeScore_monotone` at concrete inputs. -/
theorem compositeScore_monotone_witness :
    compositeScore 10 0.5 0.5 ≤ compositeScore 20 0.5 0.5 ∧
    compositeScore 10 0.5 0.5 ≤ compositeScore 10 0.6 0.5 ∧
    compositeScore 10 0.5 0.5 ≤ compositeScore 10 0.5 0.6 :=
  ⟨compositeScore_monotone.1 10 20 0.5 0.5 (by norm_num),
   compositeScore_monotone.2.1 10 0.5 0.6 0.5 (by norm_num),
   compositeScore_monotone.2.2 10 0.5 0.5 0.6 (by norm_num)⟩

/-! ## Content review (claim C5) -/

/-- **C5** (the code evaluated at the failing input): `_review_content_node`
reads the quality metrics from `content["post"].get("quality_metrics", {})`,
but `_store_content`'s post dict never carries a `quality_metrics` key, so
the lookup always defaults both scores to 0.  A candidate whose generation
result carries readability 80 and engagement 0.9 at the top level — which by
the claim's formula scores `80*0.3 + 0.9*100*0.4 + 0.9*100*0.3 = 87 ≥ 40`
and must be approved — is actually scored `0*0.3 + 0*100*0.4 + 27 = 27` and
is not approved. -/
theorem review_quality_metrics_bug :
    (reviewOne
        { quality_metrics := { readability_score := 80, engagement_score := 0.9 },
          trend_relevance := 0.9 }).composite_score = 27 ∧
    (reviewOne
        { quality_metrics := { readability_score := 80, engagement_score := 0.9 },
          trend_relevance := 0.9 }).approved = false ∧
    compositeScore 80 0.9 0.9 = 87 ∧
    (40 : ℚ) ≤ compositeScore 80 0.9 0.9 := by
  refine ⟨?_, ?_, ?_, ?_⟩ <;> norm_num [reviewOne, candidateComposite, compositeScore]

/-! ## Post-time computation (claims C3, C4) -/

/-- **C3** (counterexample): with 4 posts and "now" = 09:00 (minute 540 of
day 0), the code's round-robin starts at hour 8 and rolls it to the next
day, producing `[next-day 08:00, 12:30, 18:00, next-day 09:30]` — not the
claimed `[12:00, 17:30, next-day 09:00, next-day 13:30]` pattern — and the
sequence is not strictly increasing. -/
theorem post_times_0900_counterexample :
    calculate_optimal_post_times 4 540 = [1920, 750, 1080, 2010] ∧
    calculate_optimal_post_times 4 540 ≠ [720, 1050, 1980, 2250] ∧
    ¬ List.Chain' (· < ·) (calculate_optimal_post_times 4 540) := by
  have h : calculate_optimal_post_times 4 540 = [1920, 750, 1080, 2010] := by decide
  refine ⟨h, by decide, ?_⟩
  rw [h]
  simp [List.chain'_cons]

/-- **C3** (amended): with 4 posts and "now" = 09:00, the computed times are
next-day 08:00 + 0 min, same-day 12:00 + 30 min, same-day 17:00 + 60 min and
next-day 08:00 + 90 min, and the sequence is not strictly increasing (the
first slot falls after the second and third). -/
theorem post_times_0900_actual :
    calculate_optimal_post_times 4 540 =
      [1 * 1440 + 8 * 60 + 0 * 30, 0 * 1440 + 12 * 60 + 1 * 30,
       0 * 1440 + 17 * 60 + 2 * 30, 1 * 1440 + 8 * 60 + 3 * 30] ∧
    ¬ List.Chain' (· < ·) (calculate_optimal_post_times 4 540) ∧
    (calculate_optimal_post_times 4 540).getD 1 0 < (calculate_optimal_post_times 4 540).getD 0 0 := by
  have h : calculate_optimal_post_times 4 540 = [1920, 750, 1080, 2010] := by decide
  refine ⟨by decide, ?_, by decide⟩
  rw [h]
  simp [List.chain'_cons]

/-- **C4** (counterexample): with `N = 10` and "now" = 00:00, the computed
timestamps are neither pairwise distinct (indices 1 and 9 are both 12:30)
nor non-decreasing (index 2 is 18:00, index 3 is 09:30). -/
theorem post_times_shape_counterexample :
    calculate_optimal_post_times 10 0 =
      [480, 750, 1080, 570, 840, 1170, 660, 930, 1260, 750] ∧
    ¬ (calculate_optimal_post_times 10 0).Pairwise (· ≠ ·) ∧
    ¬ List.Chain' (· ≤ ·) (calculate_optimal_post_times 10 0) := by
  have h : calculate_optimal_post_times 10 0 =
      [480, 750, 1080, 570, 840, 1170, 660, 930, 1260, 750] := by decide
  refine ⟨h, ?_, ?_⟩ <;> rw [h]
  · simp [List.pairwise_cons]
  · simp [List.chain'_cons]

/-- **C4** (amended): for every `N ≥ 0` and reference time, the computation
returns exactly `N` timestamps, and each timestamp lies on one of the
configured optimal hours — on the base day or on the next calendar day —
plus the `index * 30`-minute jitter; pairwise distinctness and monotonicity
do not hold in general. -/
theorem post_times_shape (n base : ℕ) :
    (calculate_optimal_post_times n base).length = n ∧
    ∀ i, i < n → ∃ d h, h ∈ optimal_hours ∧
      (d = base / 1440 ∨ d = base / 1440 + 1) ∧
      (calculate_optimal_post_times n base).getD i 0 = d * 1440 + h * 60 + i * 30 := by
  constructor
  · simp [calculate_optimal_post_times]
  · intro i hi
    refine ⟨if optimal_hours.getD (i % optimal_hours.length) 0 ≤ base % 1440 / 60
        then base / 1440 + 1 else base / 1440,
      optimal_hours.getD (i % optimal_hours.length) 0, ?_, ?_, ?_⟩
    · have hlt : i % optimal_hours.length < optimal_hours.length :=
        Nat.mod_lt _ (by simp [optimal_hours])
      have h3 : i % optimal_hours.length = 0 ∨ i % optimal_hours.length = 1 ∨
          i % optimal_hours.length = 2 := by
        have hlen : optimal_hours.length = 3 := rfl
        rw [hlen] at hlt ⊢
        omega
      rcases h3 with h | h | h <;> rw [h] <;> simp [optimal_hours]
    · split
      · exact Or.inr rfl
      · exact Or.inl rfl
    · have hlen : i < (calculate_optimal_post_times n base).length := by
        simpa [calculate_optimal_post_times] using hi
      rw [List.getD_eq_getElem _ _ hlen]
      simp [calculate_optimal_post_times]

/-- Witness for `post_times_shape` at `N = 1`, base 0, index 0. -/
theorem post_times_shape_witness :
    (calculate_optimal_post_times 1 0).length = 1 ∧
    (∃ d h, h ∈ optimal_hours ∧ (d = 0 / 1440 ∨ d = 0 / 1440 + 1) ∧
      (calculate_optimal_post_times 1 0).getD 0 0 = d * 1440 + h * 60 + 0 * 30) :=
  ⟨(post_times_shape 1 0).1, (post_times_shape 1 0).2 0 (by decide)⟩

/-! ## The review-content decision (claim C2) -/

/-- **C2** (counterexample): at the review decision point with zero
candidates — a case the claim says regenerates, since 0 is below the
ceiling of 5 — the code returns "skip", not "regenerate". -/
theorem review_decision_counterexample :
    approvedCount (({} : WState)).generated_content = 0 ∧
    (({} : WState)).generated_content.length < 5 ∧
    should_publish_content ({} : WState) = Decision.skip ∧
    should_publish_content ({} : WState) ≠ Decision.regenerate := by
  refine ⟨rfl, by decide, rfl, by decide⟩

/-- Case analysis of the `_should_publish_content` conditional edge. -/
theorem shouldPublish_cases (s : WState) :
    (1 ≤ approvedCount s.generated_content → should_publish_content s = .publish) ∧
    (approvedCount s.generated_content = 0 → 1 ≤ s.generated_content.length →
      s.generated_content.length < 5 → should_publish_content s = .regenerate) ∧
    (approvedCount s.generated_content = 0 →
      (s.generated_content.length = 0 ∨ 5 ≤ s.generated_content.length) →
      should_publish_content s = .skip) := by
  refine ⟨?_, ?_, ?_⟩
  · intro h
    have hne : s.generated_content.isEmpty = false := by
      rcases hl : s.generated_content with _ | ⟨c, cs⟩
      · rw [hl] at h; exact absurd h (by simp [approvedCount])
      · simp
    simp [should_publish_content, hne, h]
  · intro h0 h1 h5
    have hne : s.generated_content.isEmpty = false := by
      rcases hl : s.generated_content with _ | ⟨c, cs⟩
      · rw [hl] at h1; simp at h1
      · simp
    simp [should_publish_content, hne, h0, h5]
  · intro h0 hor
    rcases hor with hz | h5
    · have hne : s.generated_content.isEmpty = true := by
        rw [List.isEmpty_iff_length_eq_zero]; exact hz
      simp [should_publish_content, hne]
    · have hne : s.generated_content.isEmpty = false := by
        rcases hl : s.generated_content with _ | ⟨c, cs⟩
        · rw [hl] at h5; simp at h5
        · simp
      simp [should_publish_content, hne, h0, Nat.not_lt.mpr h5]

/-- **C2** (amended): at the review decision point, at least one approved
candidate goes to publish; zero approved with a *nonzero* candidate count
below 5 regenerates; zero approved with either zero candidates or a count
of at least 5 skips. -/
theorem review_decision_cases (s : WState) :
    (1 ≤ approvedCount s.generated_content → should_publish_content s = .publish) ∧
    (approvedCount s.generated_content = 0 → 1 ≤ s.generated_content.length →
      s.generated_content.length < 5 → should_publish_content s = .regenerate) ∧
    (approvedCount s.generated_content = 0 →
      (s.generated_content.length = 0 ∨ 5 ≤ s.generated_content.length) →
      should_publish_content s = .skip) :=
  shouldPublish_cases s

/-- Witness for `review_decision_cases`: one unapproved candidate at the
decision point regenerates. -/
theorem review_decision_cases_witness :
    should_publish_content { generated_content := [({} : Candidate)] } = Decision.regenerate :=
  (review_decision_cases { generated_content := [({} : Candidate)] }).2.1
    (by decide) (by decide) (by decide)

/-! ## Generation-node frame (claim C10) -/

/-- The inner tone loop of `_generate_content_node` appends exactly the
successful generations of one trend. -/
theorem generate_inner_foldl (gen : Trend → String → Option GenContent) (t : Trend) :
    ∀ (tones : List String) (st : WState),
      (tones.foldl
        (fun st2 tone =>
          match gen t tone with
          | some g => { st2 with generated_content := st2.generated_content ++ [mkCandidate t tone g] }
          | none => st2)
        st) =
      { st with generated_content :=
          st.generated_content ++ tones.filterMap fun tone => (gen t tone).map (mkCandidate t tone) }
  | [], st => by simp
  | tone :: rest, st => by
    rw [List.foldl_cons, generate_inner_foldl gen t rest]
    cases hg : gen t tone <;> simp [hg]

/-- The outer trend loop of `_generate_content_node` appends exactly the
pass candidates. -/
theorem generate_outer_foldl (gen : Trend → String → Option GenContent) (tones : List String) :
    ∀ (trends : List Trend) (st : WState),
      (trends.foldl
        (fun st1 t =>
          tones.foldl
            (fun st2 tone =>
              match gen t tone with
              | some g => { st2 with generated_content := st2.generated_content ++ [mkCandidate t tone g] }
              | none => st2)
            st1)
        st) =
      { st with generated_content := st.generated_content ++ passCandidates gen trends tones }
  | [], st => by simp [passCandidates]
  | t :: rest, st => by
    rw [List.foldl_cons, generate_inner_foldl gen t tones st, generate_outer_foldl gen tones rest]
    simp [passCandidates]

/-- Closed form of `_generate_content_node`. -/
theorem generate_content_node_eq (gen : Trend → String → Option GenContent) (s : WState) :
    generate_content_node gen s =
      { s with current_step := "generating_content",
               generated_content := passCandidates gen s.trends s.content_tones } := by
  unfold generate_content_node
  rw [generate_outer_foldl]
  simp

/-- **C10**: the generation stage replaces `generated_content` with exactly
the candidates of the current pass — the result is what generation from an
empty candidate list produces, so candidates never accumulate across
regenerate iterations — and the stage leaves `trends` unchanged. -/
theorem generate_content_frame (gen : Trend → String → Option GenContent) (s : WState) :
    (generate_content_node gen s).generated_content =
      passCandidates gen s.trends s.content_tones ∧
    (generate_content_node gen s).generated_content =
      (generate_content_node gen { s with generated_content := [] }).generated_content ∧
    (generate_content_node gen s).trends = s.trends := by
  rw [generate_content_node_eq, generate_content_node_eq]
  exact ⟨rfl, rfl, rfl⟩

/-! ## Run summary contract (claim C8) -/

/-- **C8** (counterexample): when the graph invocation raises, the returned
value has `success = False` but carries *no* summary — the counts and the
accumulated error list are absent, contrary to the claim that they are
present in both the success and the failure case. -/
theorem run_summary_counterexample :
    (run_daily_automation "wf" (Except.error "boom")).success = false ∧
    (run_daily_automation "wf" (Except.error "boom")).summary = none ∧
    (run_daily_automation "wf" (Except.error "boom")).scheduled_posts = none :=
  ⟨rfl, rfl, rfl⟩

/-- **C8** (amended): the entry point always returns a result value (the
embedding is a total function of the invocation outcome); on success the
result carries the success flag and a summary with the trend / content /
scheduled counts and the accumulated error list of the final state; on
failure it carries only the failure flag and an error message, with no
summary. -/
theorem run_summary_shape (wid : String) (invoke : Except String WState) :
    (∀ fs, invoke = Except.ok fs →
      (run_daily_automation wid invoke).success = true ∧
      (run_daily_automation wid invoke).summary = some
        { trends_found := fs.trends.length
          content_generated := fs.generated_content.length
          posts_scheduled := fs.published_posts.length
          errors := fs.errors } ∧
      (run_daily_automation wid invoke).error = none) ∧
    (∀ e, invoke = Except.error e →
      (run_daily_automation wid invoke).success = false ∧
      (run_daily_automation wid invoke).summary = none ∧
      (run_daily_automation wid invoke).error =
        some ("Workflow execution failed: " ++ e)) := by
  constructor
  · rintro fs rfl
    exact ⟨rfl, rfl, rfl⟩
  · rintro e rfl
    exact ⟨rfl, rfl, rfl⟩

/-- Witness for `run_summary_shape` on a concrete success and a concrete
failure outcome. -/
theorem run_summary_shape_witness :
    (run_daily_automation "w" (Except.ok {})).success = true ∧
    (run_daily_automation "w" (Except.error "boom")).summary = none :=
  ⟨((run_summary_shape "w" (Except.ok {})).1 {} rfl).1,
   ((run_summary_shape "w" (Except.error "boom")).2 "boom" rfl).2.1⟩

/-! ## Trend ranking (claim C6) -/

/-- Bumping a count in the accumulator never changes an entry's key. -/
theorem bump_fst (key : String) (p : String × Mention × ℕ) :
    (if p.1 = key then (p.1, p.2.1, p.2.2 + 1) else p).1 = p.1 := by
  split <;> rfl

/-- Bumping a count in the accumulator never changes an entry's seed
mention. -/
theorem bump_seed (key : String) (p : String × Mention × ℕ) :
    (if p.1 = key then (p.1, p.2.1, p.2.2 + 1) else p).2.1 = p.2.1 := by
  split <;> rfl

/-- The grouping loop preserves the accumulator invariant: keys stay
pairwise distinct and remain the lower-cased topics of their seeds. -/
theorem tally_good : ∀ (ms : List Mention) (counter : ℕ)
    (acc : List (String × Mention × ℕ)), GoodAcc acc → GoodAcc (tally ms counter acc)
  | [], _, _, h => h
  | m :: ms, counter, acc, h => by
    rw [tally]
    by_cases h10 : 10 ≤ counter
    · rw [if_pos h10]; exact h
    · rw [if_neg h10]
      refine tally_good ms (counter + 1) _ ?_
      by_cases hmem : (acc.any fun p => p.1 = strLower m.topic) = true
      · rw [if_pos hmem]
        constructor
        · rw [List.pairwise_map]
          exact h.1.imp fun hne => by
            rw [bump_fst, bump_fst]; exact hne
        · intro p hp
          obtain ⟨q, hq, rfl⟩ := List.mem_map.mp hp
          rw [bump_fst, bump_seed]
          exact h.2 q hq
      · rw [if_neg hmem]
        have hall : ∀ p ∈ acc, p.1 ≠ strLower m.topic := by
          intro p hp heq
          exact hmem (List.any_eq_true.mpr ⟨p, hp, by simp [heq]⟩)
        constructor
        · rw [List.pairwise_append]
          refine ⟨h.1, List.pairwise_singleton _ _, ?_⟩
          intro p hp q hq
          rw [List.mem_singleton] at hq
          subst hq
          exact hall p hp
        · intro p hp
          rcases List.mem_append.mp hp with hp | hp
          · exact h.2 p hp
          · rw [List.mem_singleton] at hp
            subst hp
            rfl

/-- Every ranked trend the scoring loop emits takes its topic string from
one of the grouped entries' seed mentions. -/
theorem mem_scoreTopics (llm : String → Except Unit (Option ℚ)) :
    ∀ (entries : List (String × Mention × ℕ)) (b : RankedTrend),
      b ∈ scoreTopics llm entries → ∃ e ∈ entries, b.topic = e.2.1.topic
  | [], b, hb => by simp [scoreTopics] at hb
  | (key, m, count) :: rest, b, hb => by
    rw [scoreTopics] at hb
    rcases hts : topicScore llm key count with _ | final
    · rw [hts] at hb
      obtain ⟨e, he, heq⟩ := mem_scoreTopics llm rest b hb
      exact ⟨e, List.mem_cons_of_mem _ he, heq⟩
    · rw [hts] at hb
      rcases List.mem_cons.mp hb with rfl | hb2
      · exact ⟨(key, m, count), List.mem_cons_self _ _, rfl⟩
      · obtain ⟨e, he, heq⟩ := mem_scoreTopics llm rest b hb2
        exact ⟨e, List.mem_cons_of_mem _ he, heq⟩

/-- Under the accumulator invariant, the scored trends have pairwise
distinct lower-cased topics. -/
theorem scoreTopics_pairwise (llm : String → Except Unit (Option ℚ)) :
    ∀ entries, GoodAcc entries →
      (scoreTopics llm entries).Pairwise fun a b => strLower a.topic ≠ strLower b.topic
  | [], _ => by simp [scoreTopics]
  | (key, m, count) :: rest, hg => by
    have hgrest : GoodAcc rest :=
      ⟨hg.1.of_cons, fun p hp => hg.2 p (List.mem_cons_of_mem _ hp)⟩
    rw [scoreTopics]
    rcases hts : topicScore llm key count with _ | final
    · exact scoreTopics_pairwise llm rest hgrest
    · refine List.Pairwise.cons ?_ (scoreTopics_pairwise llm rest hgrest)
      intro b hb
      obtain ⟨e, he, heq⟩ := mem_scoreTopics llm rest b hb
      have h1 : key = strLower m.topic := hg.2 (key, m, count) (List.mem_cons_self _ _)
      have h2 : strLower b.topic = e.1 := by
        rw [heq]; exact (hg.2 e (List.mem_cons_of_mem _ he)).symm
      have h3 : key ≠ e.1 := (List.pairwise_cons.mp hg.1).1 e he
      show strLower m.topic ≠ strLower b.topic
      rw [h2, ← h1]
      exact h3

/-- **C6**: for every input list of topic mentions and every limit, the
ranking returns at most `limit` trends, sorted descending by final score,
with no two returned trends sharing a case-folded topic string. -/
theorem rank_trends_spec (llm : String → Except Unit (Option ℚ))
    (topics : List Mention) (limit : ℕ) :
    (rank_trends llm topics limit).length ≤ limit ∧
    (rank_trends llm topics limit).Pairwise
      (fun a b => b.relevance_score ≤ a.relevance_score) ∧
    (rank_trends llm topics limit).Pairwise
      (fun a b => strLower a.topic ≠ strLower b.topic) := by
  refine ⟨?_, ?_, ?_⟩
  · unfold rank_trends
    rw [List.length_take]
    exact min_le_left _ _
  · refine List.Pairwise.sublist (List.take_sublist _ _) ?_
    exact List.sorted_insertionSort rankDesc _
  · refine List.Pairwise.sublist (List.take_sublist _ _) ?_
    have hg : GoodAcc (tally topics 0 []) :=
      tally_good topics 0 [] ⟨List.Pairwise.nil, by simp⟩
    exact ((List.perm_insertionSort rankDesc _).pairwise_iff
      fun h => Ne.symm h).mpr (scoreTopics_pairwise llm _ hg)

/-! ## The regenerate loop (claim C1) -/

/-- The review node only rewrites `generated_content` and `current_step`. -/
theorem review_node_published (s : WState) :
    (review_content_node s).published_posts = s.published_posts := rfl

/-- Candidate count is preserved by review (annotation plus a stable
sort). -/
theorem review_length (s : WState) :
    (review_content_node s).generated_content.length = s.generated_content.length := by
  unfold review_content_node
  rw [(List.perm_insertionSort scoreDesc _).length_eq, List.length_map]

/-- The generation node leaves `trends` unchanged. -/
theorem generate_node_trends (gen : Trend → String → Option GenContent) (s : WState) :
    (generate_content_node gen s).trends = s.trends := by
  rw [generate_content_node_eq]

/-- The generation node leaves `content_tones` unchanged. -/
theorem generate_node_tones (gen : Trend → String → Option GenContent) (s : WState) :
    (generate_content_node gen s).content_tones = s.content_tones := by
  rw [generate_content_node_eq]

/-- The generation node leaves `published_posts` unchanged. -/
theorem generate_node_published (gen : Trend → String → Option GenContent) (s : WState) :
    (generate_content_node gen s).published_posts = s.published_posts := by
  rw [generate_content_node_eq]

/-- An approved count of zero is exactly "no candidate is approved". -/
theorem approvedCount_eq_zero_iff (cs : List Candidate) :
    approvedCount cs = 0 ↔ ∀ c ∈ cs, c.approved = false := by
  unfold approvedCount
  rw [List.length_eq_zero, List.filter_eq_nil_iff]
  simp

/-- Reviewing candidates whose composite scores are all below 40 approves
none of them. -/
theorem review_unapproved (s : WState)
    (hlow : ∀ c ∈ s.generated_content, candidateComposite c < 40) :
    ∀ c ∈ (review_content_node s).generated_content, c.approved = false := by
  intro c hc
  have hc2 : c ∈ s.generated_content.map reviewOne :=
    (List.perm_insertionSort scoreDesc _).mem_iff.mp hc
  obtain ⟨c0, hc0, rfl⟩ := List.mem_map.mp hc2
  exact decide_eq_false (not_le.mpr (hlow c0 hc0))

/-- After reviewing an all-below-threshold batch, the decision is exactly
the one determined by the batch size: empty skips, 1–4 regenerates, 5 or
more skips. -/
theorem decision_after_review (s : WState)
    (hlow : ∀ c ∈ s.generated_content, candidateComposite c < 40) :
    (s.generated_content.length = 0 →
      should_publish_content (review_content_node s) = .skip) ∧
    (1 ≤ s.generated_content.length → s.generated_content.length < 5 →
      should_publish_content (review_content_node s) = .regenerate) ∧
    (5 ≤ s.generated_content.length →
      should_publish_content (review_content_node s) = .skip) := by
  have hz : approvedCount (review_content_node s).generated_content = 0 :=
    (approvedCount_eq_zero_iff _).mpr (review_unapproved s hlow)
  have hlen := review_length s
  refine ⟨?_, ?_, ?_⟩
  · intro h0
    exact (shouldPublish_cases _).2.2 hz (Or.inl (by rw [hlen, h0]))
  · intro h1 h5
    exact (shouldPublish_cases _).2.1 hz (by rw [hlen]; exact h1) (by rw [hlen]; exact h5)
  · intro h5
    exact (shouldPublish_cases _).2.2 hz (Or.inr (by rw [hlen]; exact h5))

/-- One unfolding of the loop. -/
theorem reviewLoop_succ (gen : Trend → String → Option GenContent)
    (persist : Candidate → Bool) (now : ℕ) (s : WState) (fuel : ℕ) :
    reviewLoop gen persist now s (fuel + 1) =
      match should_publish_content (review_content_node (generate_content_node gen s)) with
      | .publish => some (.published,
          monitor_engagement_node
            (schedule_posts_node persist now (review_content_node (generate_content_node gen s))))
      | .skip => some (.skipped, review_content_node (generate_content_node gen s))
      | .regenerate =>
          reviewLoop gen persist now (review_content_node (generate_content_node gen s)) fuel := rfl

/-- When every pass of the generator yields between 1 and 4 candidates, all
scoring below the approval threshold, the loop answers "regenerate" at every
iteration and never produces an outcome, for any amount of fuel. -/
theorem reviewLoop_stuck (gen : Trend → String → Option GenContent)
    (persist : Candidate → Bool) (now : ℕ) (T : List Trend) (tones : List String)
    (hlow : ∀ c ∈ passCandidates gen T tones, candidateComposite c < 40)
    (h1 : 1 ≤ (passCandidates gen T tones).length)
    (h5 : (passCandidates gen T tones).length < 5) :
    ∀ (fuel : ℕ) (s : WState), s.trends = T → s.content_tones = tones →
      reviewLoop gen persist now s fuel = none := by
  intro fuel
  induction fuel with
  | zero => intro s _ _; rfl
  | succ n ih =>
    intro s hT htones
    have hcontent : (generate_content_node gen s).generated_content =
        passCandidates gen T tones := by
      rw [generate_content_node_eq]
      simp [hT, htones]
    have hlow1 : ∀ c ∈ (generate_content_node gen s).generated_content,
        candidateComposite c < 40 := by
      rw [hcontent]; exact hlow
    have hdec : should_publish_content
        (review_content_node (generate_content_node gen s)) = .regenerate :=
      (decision_after_review _ hlow1).2.1
        (by rw [hcontent]; exact h1) (by rw [hcontent]; exact h5)
    rw [reviewLoop_succ, hdec]
    exact ih (review_content_node (generate_content_node gen s))
      ((generate_node_trends gen s).trans hT)
      ((generate_node_tones gen s).trans htones)

/-- The fixture pass: the always-succeeding low-quality generator produces
exactly two never-approved candidates per pass. -/
theorem passFix_eq : passCandidates genStub s0.trends s0.content_tones =
    [{ post := {}, quality_metrics := {}, trend_relevance := 0.9, tone := "professional" },
     { post := {}, quality_metrics := {}, trend_relevance := 0.9, tone := "casual" }] := rfl

/-- Both fixture candidates score 27 < 40. -/
theorem passFix_low :
    ∀ c ∈ passCandidates genStub s0.trends s0.content_tones, candidateComposite c < 40 := by
  rw [passFix_eq]
  intro c hc
  rcases List.mem_cons.mp hc with rfl | hc2
  · norm_num [candidateComposite, compositeScore]
  · rcases List.mem_cons.mp hc2 with rfl | hc3
    · norm_num [candidateComposite, compositeScore]
    · simp at hc3

/-- **C1** (counterexample): with one trend and the default two tones, a
generation service that always succeeds but only produces never-approved
content yields 2 candidates per pass; since the review node resets and
re-counts only the current pass, the decision stays "regenerate" — after 10
iterations (20 candidates generated in total, far past the ceiling of 5) the
run has still not terminated with a "skip" outcome. -/
theorem regenerate_loop_counterexample :
    reviewLoop genStub (fun _ => true) 540 s0 10 = none ∧
    (passCandidates genStub s0.trends s0.content_tones).length = 2 :=
  ⟨reviewLoop_stuck genStub (fun _ => true) 540 s0.trends s0.content_tones passFix_low
      (by rw [passFix_eq]; decide) (by rw [passFix_eq]; decide) 10 s0 rfl rfl,
   by rw [passFix_eq]; rfl⟩

/-- **C1** (amended): with a never-approved generation service, the decision
examines only the candidates of the *current* pass (the generation node
resets the list).  If a pass yields no candidate, or 5 or more, the run
terminates at the first review with the "skip" outcome and its
`published_posts` unchanged (zero posts scheduled); if a pass yields between
1 and 4 candidates, the loop regenerates forever and no fuel bound makes it
terminate with "skip". -/
theorem regenerate_loop_behavior (gen : Trend → String → Option GenContent)
    (persist : Candidate → Bool) (now : ℕ) (s : WState)
    (hlow : ∀ c ∈ passCandidates gen s.trends s.content_tones, candidateComposite c < 40) :
    ((passCandidates gen s.trends s.content_tones).length = 0 ∨
        5 ≤ (passCandidates gen s.trends s.content_tones).length →
      ∀ fuel, reviewLoop gen persist now s (fuel + 1) =
          some (Outcome.skipped, review_content_node (generate_content_node gen s)) ∧
        (review_content_node (generate_content_node gen s)).published_posts =
          s.published_posts) ∧
    (1 ≤ (passCandidates gen s.trends s.content_tones).length →
      (passCandidates gen s.trends s.content_tones).length < 5 →
      ∀ fuel, reviewLoop gen persist now s fuel = none) := by
  constructor
  · intro hor fuel
    have hcontent : (generate_content_node gen s).generated_content =
        passCandidates gen s.trends s.content_tones := by
      rw [generate_content_node_eq]
    have hlow1 : ∀ c ∈ (generate_content_node gen s).generated_content,
        candidateComposite c < 40 := by
      rw [hcontent]; exact hlow
    have hdec : should_publish_content
        (review_content_node (generate_content_node gen s)) = .skip := by
      rcases hor with h0 | h5
      · exact (decision_after_review _ hlow1).1 (by rw [hcontent]; exact h0)
      · exact (decision_after_review _ hlow1).2.2 (by rw [hcontent]; exact h5)
    refine ⟨?_, ?_⟩
    · rw [reviewLoop_succ, hdec]
    · rw [review_node_published, generate_node_published]
  · intro h1 h5 fuel
    exact reviewLoop_stuck gen persist now s.trends s.content_tones hlow h1 h5 fuel s rfl rfl

/-- Witness for `regenerate_loop_behavior` on the fixture configuration. -/
theorem regenerate_loop_behavior_witness :
    reviewLoop genStub (fun _ => true) 540 s0 7 = none :=
  (regenerate_loop_behavior genStub (fun _ => true) 540 s0 passFix_low).2
    (by rw [passFix_eq]; decide) (by rw [passFix_eq]; decide) 7

end LinkedInWF
